import Mathlib

/-!
Verification of the resilient data-access layer of the WarehouseManagerAI
repository (`src/src/database/db_manager.py`).

The development shallowly embeds the Python code:

* `isTransientMsg` embeds `DBManager._is_transient_operational_error`;
* `runWithRetries` embeds `DBManager._run_with_retries`
  (the sleep calls are recorded as a trace instead of being performed);
* `DBM.query_df`, `DBM.vector_similarity`, `DBM.execute` embed the public
  router operations, with the DuckDB mirror object abstracted by the
  interface the router actually uses (`ensure_from_sql_dump`, `query_df`,
  `vector_similarity`, `maybe_sync_from_sql_dump`); calls to the mirror are
  recorded as a trace of events;
* `Mirror.sync_from_sql_dump`, `Mirror.maybe_sync_from_sql_dump`,
  `Mirror.ensure_from_sql_dump`, `Mirror.is_ready` embed the
  `DuckDBMirror` state machine over an explicit filesystem model `FS`;
* `iterateDumpEntries` embeds `DuckDBMirror._iterate_dump_entries` and
  `parseCopyCommand` embeds `DuckDBMirror._parse_copy_command`;
* `DuckDBMirror_vector_similarity` embeds `DuckDBMirror.vector_similarity`
  together with `_parse_embedding` and `_coerce_vector`.

Python float timestamps and intervals are modelled by `ℚ`; numpy float
vectors by `List ℚ`.  Euclidean distances are modelled by their squares
(the source computes `np.linalg.norm`; squaring is strictly monotone on
nonnegative reals, so every ordering statement is unaffected and the
definitions stay executable).
-/

/-- Characters stripped by Python `str.rstrip()` style helpers. -/
def listRStrip (p : Char → Bool) (s : List Char) : List Char :=
  (s.reverse.dropWhile p).reverse

/-- Python `raw_line.rstrip()` (strip trailing whitespace). -/
def strRStripWS (s : String) : String :=
  (listRStrip Char.isWhitespace s.toList).asString

/-- Python `raw_line.lstrip()` (strip leading whitespace). -/
def strLStrip (s : String) : String :=
  (s.toList.dropWhile Char.isWhitespace).asString

/-- Python `raw_line.rstrip("\r\n")`. -/
def strRStripCRLF (s : String) : String :=
  (listRStrip (fun c => c = '\r' || c = '\n') s.toList).asString

/-- Does the character list `needle` occur contiguously inside `hay`?
Used to embed Python's `keyword in message` substring test. -/
def listStartsWith : List Char → List Char → Bool
  | _, [] => true
  | [], _ :: _ => false
  | a :: as, b :: bs => a = b && listStartsWith as bs

/-- Substring occurrence on character lists. -/
def containsSub : List Char → List Char → Bool
  | [], needle => needle.isEmpty
  | a :: rest, needle => listStartsWith (a :: rest) needle || containsSub rest needle

/-- Python `needle in hay` for strings. -/
def strContains (hay needle : String) : Bool :=
  containsSub hay.toList needle.toList

/-- Python `str.lower()` (per-character, which suffices for the ASCII error
messages and SQL keywords involved); built on lists so that it reduces in
the kernel. -/
def strToLower (s : String) : String := (s.toList.map Char.toLower).asString

/-- Python `str.upper()`, list-based. -/
def strToUpper (s : String) : String := (s.toList.map Char.toUpper).asString

/-- Python `str.strip()`, list-based. -/
def strTrim (s : String) : String :=
  ((s.toList.dropWhile Char.isWhitespace).reverse.dropWhile Char.isWhitespace).reverse.asString

/-- Python `str.startswith`, list-based. -/
def strStartsWith (s pre : String) : Bool := listStartsWith s.toList pre.toList

/-- Python `str.endswith`, list-based. -/
def strEndsWith (s suf : String) : Bool :=
  listStartsWith s.toList.reverse suf.toList.reverse

/-- The fixed transient-failure signatures of
`DBManager._is_transient_operational_error` (db_manager.py lines 668-676). -/
def transientKeywords : List String :=
  [ "connection refused"
  , "could not connect"
  , "connection timed out"
  , "server closed the connection"
  , "connection not open"
  , "no such host"
  , "terminating connection due to administrator command" ]

/-- Embedding of `DBManager._is_transient_operational_error`: lowercase the
error message and look for any transient keyword as a substring. -/
def isTransientMsg (msg : String) : Bool :=
  transientKeywords.any (fun kw => strContains (strToLower msg) kw)

/-- Python exceptions reaching the router: `OperationalError` (the only class
caught by `_run_with_retries` and `query_df`) versus anything else. -/
inductive PyError
  | operational (msg : String)
  | other (msg : String)
deriving DecidableEq, Repr

/-- Result of one run of `_run_with_retries`: final outcome, number of calls
made to the wrapped function, and the trace of sleep durations. -/
structure RetryTrace (α : Type) where
  result : Except PyError α
  calls : Nat
  sleeps : List ℚ

/-- Embedding of the loop body of `DBManager._run_with_retries`
(db_manager.py lines 679-703).  `func n` is the outcome of the `n`-th call of
the wrapped operation (`n` starts at 0).  The Python `attempts` counter after
the `n`-th failed call equals `n + 1`; the loop raises when
`attempts >= max_retries or not transient`, otherwise it sleeps (only when
`retry_interval` is nonzero, mirroring `if self.retry_interval:`) and loops.
`fuel` is only a structural-recursion bound: every call supplies
`fuel = maxRetries - calls`, and the `fuel = 0` branch is unreachable because
the exhaustion test `calls + 1 ≥ maxRetries` fires first. -/
def runWithRetriesGo (func : Nat → Except PyError α) (maxRetries : Nat) (interval : ℚ) :
    Nat → Nat → RetryTrace α
  | calls, fuel =>
    match func calls with
    | .ok v => ⟨.ok v, 1, []⟩
    | .error (.other m) => ⟨.error (.other m), 1, []⟩
    | .error (.operational m) =>
      if maxRetries ≤ calls + 1 || !(isTransientMsg m) then
        ⟨.error (.operational m), 1, []⟩
      else
        match fuel with
        | 0 => ⟨.error (.operational m), 1, []⟩
        | fuel' + 1 =>
          let rest := runWithRetriesGo func maxRetries interval (calls + 1) fuel'
          ⟨rest.result, rest.calls + 1,
            (if interval = 0 then [] else [interval]) ++ rest.sleeps⟩

/-- Embedding of `DBManager._run_with_retries`. -/
def runWithRetries (func : Nat → Except PyError α) (maxRetries : Nat) (interval : ℚ) :
    RetryTrace α :=
  runWithRetriesGo func maxRetries interval 0 maxRetries

/-- Named query parameters (`params` mapping of the Python API). -/
abbrev Params := List (String × String)

/-- Observable interactions of the router with its DuckDB mirror. -/
inductive REvent
  | ensureFromDump
  | mirrorQuery (sql : String) (params : Params)
  | mirrorVector (v : List ℚ) (limit : Int)
  | maybeSync
deriving DecidableEq, Repr

/-- The part of the `DuckDBMirror` object that `DBManager` uses on the
fallback path: `ensure_from_sql_dump()` returning a readiness boolean, the
mirror-side `query_df` and the mirror-side `vector_similarity`. -/
structure MirrorIface (α : Type) where
  ensure : Bool
  queryDf : String → Params → Except PyError α
  vectorSim : List ℚ → Int → Except PyError α

/-- Router configuration and mirror handle of `DBManager`
(after `__init__`, `max_retries = max(1, max_retries)` and
`retry_interval = max(0.0, retry_interval)`). -/
structure DBM (α : Type) where
  maxRetries : Nat
  retryInterval : ℚ
  mirror : Option (MirrorIface α)

/-- Embedding of `DBManager.query_df` (db_manager.py lines 713-741).
On primary success the router calls `_maybe_sync_duckdb`; on an
`OperationalError` that is transient and with a mirror configured it calls
`ensure_from_sql_dump()` and, on success, replays the identical sql/params
against the mirror, re-raising the original error if the mirror query fails;
in every other failure case the original error is re-raised. -/
def DBM.query_df (dbm : DBM α) (func : Nat → Except PyError α) (sql : String)
    (params : Params) : Except PyError α × List REvent :=
  let t := runWithRetries func dbm.maxRetries dbm.retryInterval
  match t.result with
  | .ok df => (.ok df, [REvent.maybeSync])
  | .error (.other m) => (.error (.other m), [])
  | .error (.operational m) =>
    match dbm.mirror with
    | none => (.error (.operational m), [])
    | some mir =>
      if isTransientMsg m then
        if mir.ensure then
          match mir.queryDf sql params with
          | .ok df => (.ok df, [REvent.ensureFromDump, REvent.mirrorQuery sql params])
          | .error _ =>
            (.error (.operational m), [REvent.ensureFromDump, REvent.mirrorQuery sql params])
        else (.error (.operational m), [REvent.ensureFromDump])
      else (.error (.operational m), [])

/-- Embedding of `DBManager.vector_similarity` (db_manager.py lines 743-777).
Unlike `query_df`, the mirror call on the fallback path is not wrapped in a
`try`: its outcome (success or error) is returned directly. -/
def DBM.vector_similarity (dbm : DBM α) (func : Nat → Except PyError α) (q : List ℚ)
    (limit : Int) : Except PyError α × List REvent :=
  let t := runWithRetries func dbm.maxRetries dbm.retryInterval
  match t.result with
  | .ok df => (.ok df, [REvent.maybeSync])
  | .error (.other m) => (.error (.other m), [])
  | .error (.operational m) =>
    match dbm.mirror with
    | none => (.error (.operational m), [])
    | some mir =>
      if isTransientMsg m then
        if mir.ensure then
          (mir.vectorSim q limit, [REvent.ensureFromDump, REvent.mirrorVector q limit])
        else (.error (.operational m), [REvent.ensureFromDump])
      else (.error (.operational m), [])

/-- Embedding of `DBManager.execute` (db_manager.py lines 779-788): the body
is exactly `self._run_with_retries(_execute, "statement")` — no mirror
fallback and no `_maybe_sync_duckdb` call. -/
def DBM.execute (dbm : DBM Unit) (func : Nat → Except PyError Unit) :
    Except PyError Unit × List REvent :=
  ((runWithRetries func dbm.maxRetries dbm.retryInterval).result, [])

/-- Content of the DuckDB secondary file, as far as the mirror's readiness
check observes it: which tables are present, and whether opening the file
succeeds (`readable = false` models `duckdb.connect` raising). -/
structure MirrorFile where
  tables : List String
  readable : Bool
deriving DecidableEq, Repr

/-- Filesystem surroundings of a `DuckDBMirror`: the SQL dump (existence and
modification time), the live secondary file at `self.path` (`none` when the
path does not exist), and the outcome `_load_sql_dump` would currently have
(`none` models an exception while loading, e.g. an unreadable dump; `some f`
models a successful rebuild producing the file `f`, atomically moved onto
`self.path` by `os.replace`). -/
structure FS where
  dumpExists : Bool
  dumpMtime : ℚ
  mirrorFile : Option MirrorFile
  loadResult : Option MirrorFile
deriving DecidableEq, Repr

/-- State of a `DuckDBMirror` object (db_manager.py lines 72-90).  The
logging-throttle flag `_warned_missing` (used only inside `is_ready` to avoid
duplicate log lines) is omitted; `_warned_missing_dump` is kept because
`sync_from_sql_dump` both sets and clears it. -/
structure Mirror where
  tables : List String
  sql_dump_path : Option String
  available : Bool
  auto_sync : Bool
  sync_interval : ℚ
  last_sync : ℚ
  last_dump_mtime : ℚ
  warned_missing_dump : Bool
deriving DecidableEq, Repr

/-- Embedding of `DuckDBMirror.is_ready` (db_manager.py lines 449-477):
false when the dependency is unavailable or the secondary file is missing;
otherwise open the file (any exception yields false) and require every
configured non-empty table name to be present. -/
def Mirror.is_ready (m : Mirror) (fs : FS) : Bool :=
  if !m.available then false
  else
    match fs.mirrorFile with
    | none => false
    | some f =>
      if !f.readable then false
      else m.tables.all (fun t => t = "" || f.tables.contains t)

/-- Embedding of `DuckDBMirror.sync_from_sql_dump` (db_manager.py lines
396-431).  Returns the Python boolean result together with the updated
mirror object and filesystem. -/
def Mirror.sync_from_sql_dump (m : Mirror) (fs : FS) (now : ℚ) (force : Bool) :
    Bool × Mirror × FS :=
  if !m.available then (false, m, fs)
  else
    match m.sql_dump_path with
    | none => (false, { m with warned_missing_dump := true }, fs)
    | some _ =>
      if !fs.dumpExists then (false, { m with warned_missing_dump := true }, fs)
      else
        let m1 := { m with warned_missing_dump := false }
        if !force ∧ m1.last_dump_mtime ≠ 0 ∧ fs.dumpMtime ≤ m1.last_dump_mtime
            ∧ fs.mirrorFile ≠ none then
          (m1.is_ready fs, m1, fs)
        else
          match fs.loadResult with
          | none => (false, m1, fs)
          | some f =>
            (true,
             { m1 with last_sync := now, last_dump_mtime := fs.dumpMtime },
             { fs with mirrorFile := some f })

/-- Embedding of `DuckDBMirror.maybe_sync_from_sql_dump` (db_manager.py lines
433-440). -/
def Mirror.maybe_sync_from_sql_dump (m : Mirror) (fs : FS) (now : ℚ) : Mirror × FS :=
  if !m.available || !m.auto_sync then (m, fs)
  else if m.sync_interval ≠ 0 ∧ m.last_sync ≠ 0 ∧ now - m.last_sync < m.sync_interval then
    (m, fs)
  else
    let r := m.sync_from_sql_dump fs now false
    (r.2.1, r.2.2)

/-- Embedding of `DuckDBMirror.ensure_from_sql_dump` (db_manager.py lines
442-447). -/
def Mirror.ensure_from_sql_dump (m : Mirror) (fs : FS) (now : ℚ) : Bool × Mirror × FS :=
  if !m.available then (false, m, fs)
  else if m.is_ready fs then (true, m, fs)
  else m.sync_from_sql_dump fs now true

/-- The guard under which `sync_from_sql_dump` reaches `_load_sql_dump`
(a rebuild attempt): dependency available, dump configured and present, and
either forced or the freshness check does not skip. -/
def Mirror.attemptsRebuild (m : Mirror) (fs : FS) (force : Bool) : Prop :=
  m.available = true ∧ m.sql_dump_path ≠ none ∧ fs.dumpExists = true ∧
    (force = true ∨
      ¬(m.last_dump_mtime ≠ 0 ∧ fs.dumpMtime ≤ m.last_dump_mtime ∧ fs.mirrorFile ≠ none))

instance (m : Mirror) (fs : FS) (force : Bool) : Decidable (m.attemptsRebuild fs force) := by
  unfold Mirror.attemptsRebuild
  infer_instance

/-- Whitespace test for the `\s` class of the COPY-header pattern. -/
def isWSC (c : Char) : Bool := c.isWhitespace

/-- Case-insensitive equality of character lists (`re.IGNORECASE`). -/
def ciEqList : List Char → List Char → Bool
  | [], [] => true
  | a :: as, b :: bs => (a.toLower = b.toLower) && ciEqList as bs
  | _, _ => false

/-- Drop a case-insensitive literal from the front, or fail. -/
def dropLitCI (lit : List Char) (s : List Char) : Option (List Char) :=
  if lit.length ≤ s.length ∧ ciEqList (s.take lit.length) lit then some (s.drop lit.length)
  else none

/-- Strip a case-insensitive literal from the end, or fail. -/
def stripLitEndCI (lit : List Char) (s : List Char) : Option (List Char) :=
  if lit.length ≤ s.length ∧ ciEqList (s.drop (s.length - lit.length)) lit then
    some (s.take (s.length - lit.length))
  else none

/-- Strip the maximal run of trailing whitespace, returning its length. -/
def stripWSEndCount (s : List Char) : List Char × Nat :=
  let r := (s.reverse.dropWhile isWSC).reverse
  (r, s.length - r.length)

/-- Python `str.split()` (split on whitespace runs, dropping empties). -/
def splitWSGo : List Char → List Char → List String
  | [], cur => if cur.isEmpty then [] else [cur.reverse.asString]
  | c :: cs, cur =>
    if isWSC c then
      if cur.isEmpty then splitWSGo cs [] else cur.reverse.asString :: splitWSGo cs []
    else splitWSGo cs (c :: cur)

/-- Python `" ".join(columns.split())`. -/
def normalizeWS (s : String) : String :=
  (List.intercalate [' '] ((splitWSGo s.toList []).map String.toList)).asString

/-- Decompose the segment `R` of a COPY header lying between `COPY\s+` and
`\s+FROM\s+stdin;?$` as the lazy groups `(.+?)\s*(?:\((.*?)\))?` would:
scan for the shortest nonempty table group such that the remainder is either
all whitespace (no column list) or whitespace followed by a parenthesised
column list reaching the end of the segment.  `tRev` accumulates the table
group in reverse. -/
def findTableCols : List Char → List Char → Option (List Char × Option (List Char))
  | tRev, rest =>
    let hit : Option (List Char × Option (List Char)) :=
      if tRev.isEmpty then none
      else
        match rest.dropWhile isWSC with
        | [] => some (tRev.reverse, none)
        | '(' :: more =>
          if more.getLast? = some ')' then some (tRev.reverse, some more.dropLast) else none
        | _ => none
    match hit with
    | some r => some r
    | none =>
      match rest with
      | [] => none
      | c :: cs => findTableCols (c :: tRev) cs

/-- Parsed COPY header (the dictionary built by `_parse_copy_command`, minus
the redundant copy of the raw command). -/
structure CopyHeader where
  table : String
  columns : Option String
deriving DecidableEq, Repr

/-- Embedding of `DuckDBMirror._parse_copy_command` (db_manager.py lines
235-249): the anchored match of
`COPY\s+(.+?)\s*(?:\((.*?)\))?\s+FROM\s+stdin;?$` under
`re.IGNORECASE | re.DOTALL`.  The tail of the pattern is end-anchored, so it
is peeled deterministically from the right; the remaining segment is handed
to `findTableCols`, which realises the lazy group semantics.  When only
whitespace separates `COPY` from `FROM`, the pattern matches exactly when
that run has length at least 3 (`\s+`, a whitespace-only table group, `\s+`),
and the captured table strips to the empty string.  On success the captures
are post-processed as in the source: `table.strip()` and
`" ".join(columns.split())`. -/
def parseCopyCommand (command : String) : Option CopyHeader :=
  let s := command.toList
  let sA := if s.getLast? = some ';' then s.dropLast else s
  match stripLitEndCI "stdin".toList sA with
  | none => none
  | some sB =>
    let p1 := stripWSEndCount sB
    if p1.2 = 0 then none
    else
      match stripLitEndCI "from".toList p1.1 with
      | none => none
      | some sD =>
        let p2 := stripWSEndCount sD
        if p2.2 = 0 then none
        else
          match dropLitCI "copy".toList p2.1 with
          | none => none
          | some sF =>
            if sF.isEmpty then
              if 3 ≤ p2.2 then some ⟨"", none⟩ else none
            else
              let r := sF.dropWhile isWSC
              if sF.length = r.length then none
              else
                match findTableCols [] r with
                | none => none
                | some tc =>
                  some ⟨strTrim tc.1.asString, tc.2.map (fun c => normalizeWS c.asString)⟩

/-- The `copy_info` dictionary accumulated for a bulk-load block: target
table, optional explicit column list, and the spooled data rows (the source
spools them to a temporary file or, failing that, an in-memory list; both are
modelled as the list of written lines). -/
structure CopyInfo where
  table : String
  columns : Option String
  data : List String
deriving DecidableEq, Repr

/-- Entries yielded by `_iterate_dump_entries`. -/
inductive DumpEntry
  | sql (statement : String)
  | copy (info : CopyInfo)
deriving DecidableEq, Repr

/-- Python `"".join(statement_lines)` followed by `.strip()`, for lines
modelled without their trailing newline. -/
def joinLines (ls : List String) : String :=
  (List.intercalate ['\n'] (ls.map String.toList)).asString

/-- Embedding of the loop of `DuckDBMirror._iterate_dump_entries`
(db_manager.py lines 167-233) over a list of dump lines (modelled without
trailing newlines).  State: the accumulated `statement_lines` and the
in-progress `copy_info` (`none` when not inside a bulk-load block).  Note
that when `_parse_copy_command` returns `None` the source merely `continue`s
without entering block mode, so the block's data rows are treated as
ordinary statement text. -/
def iterGo : List String → List String → Option CopyInfo → List DumpEntry
  | [], _, _ => []
  | raw :: rest, stmtLines, some ci =>
    let line := strRStripCRLF raw
    if line = "\\." then DumpEntry.copy ci :: iterGo rest stmtLines none
    else iterGo rest stmtLines (some { ci with data := ci.data ++ [line] })
  | raw :: rest, stmtLines, none =>
    if stmtLines.isEmpty && strStartsWith (strLStrip raw) "--" then iterGo rest stmtLines none
    else
      let stmtLines' := stmtLines ++ [raw]
      if strEndsWith (strRStripWS raw) ";" then
        let statement := strTrim (joinLines stmtLines')
        if statement = "" then iterGo rest [] none
        else if strStartsWith (strToUpper statement) "COPY "
            && strContains (strToLower statement) "from stdin" then
          match parseCopyCommand statement with
          | none => iterGo rest [] none
          | some h => iterGo rest [] (some ⟨h.table, h.columns, []⟩)
        else DumpEntry.sql statement :: iterGo rest [] none
      else iterGo rest stmtLines' none

/-- Embedding of `DuckDBMirror._iterate_dump_entries` from the start state. -/
def iterateDumpEntries (lines : List String) : List DumpEntry := iterGo lines [] none

/-- Dynamic Python values as they occur in the embedding column and in query
vectors: `None`, numbers, JSON strings (carrying the result of `json.loads`,
`none` for a `JSONDecodeError`), and lists (also standing for tuples and for
numpy arrays, whose `tolist()` the source folds away).  Byte strings and
numeric-string elements (which Python `float()` would coerce) do not occur in
this data and are not modelled. -/
inductive PyVal
  | pyNone
  | pyNum (q : ℚ)
  | pyStr (decoded : Option PyVal)
  | pyList (xs : List PyVal)

/-- Is the value Python `None` (SQL NULL)? -/
def PyVal.isNone : PyVal → Bool
  | .pyNone => true
  | _ => false

/-- Python `float(x)` on a JSON-decoded element (numbers only, see `PyVal`). -/
def pyFloat : PyVal → Option ℚ
  | .pyNum q => some q
  | _ => none

/-- Python `[float(x) for x in parsed]`, `None` on `TypeError`/`ValueError`. -/
def toFloatList (xs : List PyVal) : Option (List ℚ) :=
  xs.mapM pyFloat

/-- Embedding of `DuckDBMirror._parse_embedding` (db_manager.py lines
138-160): `None` for `None`; for a string, the JSON decoding must yield a
list of coercible numbers; lists/tuples (and arrays via `tolist`) are
coerced elementwise; any other value (e.g. a bare number) yields `None`. -/
def parse_embedding : PyVal → Option (List ℚ)
  | .pyNone => none
  | .pyStr d =>
    match d with
    | some (.pyList xs) => toFloatList xs
    | _ => none
  | .pyList xs => toFloatList xs
  | .pyNum _ => none

/-- Embedding of `DuckDBMirror._coerce_vector` (db_manager.py lines 107-136)
on the modelled value universe; it agrees with `parse_embedding` there (the
extra branches of the source handle byte strings, memoryviews and general
iterables, none of which occur in the modelled domain). -/
def coerce_vector : PyVal → Option (List ℚ)
  | .pyNone => none
  | .pyStr d =>
    match d with
    | some (.pyList xs) => toFloatList xs
    | _ => none
  | .pyList xs => toFloatList xs
  | .pyNum _ => none

/-- Distance values: a finite (squared) Euclidean distance or `float("inf")`. -/
inductive DistV
  | fin (q : ℚ)
  | inf
deriving DecidableEq, Repr

/-- Comparison `≤` on distance values. -/
def DistV.leB : DistV → DistV → Bool
  | .fin a, .fin b => a ≤ b
  | .fin _, .inf => true
  | .inf, .inf => true
  | .inf, .fin _ => false

/-- Comparison `<` on distance values. -/
def DistV.ltB : DistV → DistV → Bool
  | .fin a, .fin b => a < b
  | .fin _, .inf => true
  | .inf, _ => false

/-- Sum of squared componentwise differences (the square of
`np.linalg.norm(emb_array - target_array)` for equal-length vectors). -/
def sumSqDiff : List ℚ → List ℚ → ℚ
  | a :: as, b :: bs => (a - b) ^ 2 + sumSqDiff as bs
  | _, _ => 0

/-- Embedding of the `_distance` closure inside `vector_similarity`
(db_manager.py lines 565-572): infinite when the stored embedding fails to
parse or is empty (`if not embedding`) or when its shape differs from the
query's; otherwise the (squared) Euclidean distance. -/
def rowDistance (target : List ℚ) (value : PyVal) : DistV :=
  match parse_embedding value with
  | none => .inf
  | some emb =>
    if emb.isEmpty then .inf
    else if emb.length ≠ target.length then .inf
    else .fin (sumSqDiff emb target)

/-- A row of the mirror's `vip_products` table. -/
structure VipProduct where
  vip_product_id : Int
  vip_brand_id : Int
  consumer_product_name : Option String
  product_name : Option String
  embedding : PyVal

/-- A row of the mirror's `vip_brands` table. -/
structure VipBrand where
  vip_brand_id : Int
  consumer_brand_name : Option String
  brand_name : Option String

/-- SQL `COALESCE(NULLIF(TRIM(c), ''), TRIM(p))` of the two name columns. -/
def displayName (c p : Option String) : Option String :=
  match c with
  | some s =>
    let t := strTrim s
    if t = "" then p.map strTrim else some t
  | none => p.map strTrim

/-- A row of the products DataFrame loaded inside `vector_similarity`. -/
structure ProdRow where
  vip_product_id : Int
  vip_brand_id : Int
  product_name : Option String
  embedding : PyVal

/-- The products query of `vector_similarity` (db_manager.py lines 535-545):
rows with non-null embedding, with the display name computed in SQL. -/
def loadProducts (tbl : List VipProduct) : List ProdRow :=
  (tbl.filter (fun r => !r.embedding.isNone)).map (fun r =>
    ⟨r.vip_product_id, r.vip_brand_id,
      displayName r.consumer_product_name r.product_name, r.embedding⟩)

/-- The brands query of `vector_similarity` (db_manager.py lines 546-553). -/
def loadBrands (tbl : List VipBrand) : List (Int × Option String) :=
  tbl.map (fun b => (b.vip_brand_id, displayName b.consumer_brand_name b.brand_name))

/-- Embedding of `dict(zip(ids, names))` followed by `Series.map`: later duplicate keys
overwrite earlier ones, and a missing key yields NaN (modelled `none`). -/
def brandLookup (brands : List (Int × Option String)) (bid : Int) : Option String :=
  (brands.reverse.find? (fun b => b.1 == bid)).bind (fun b => b.2)

/-- Stable insertion for `nsmallest` (pandas keep="first"): a new row goes
after every already-placed row of strictly smaller distance and before the
first row of equal or larger distance, so earlier rows win ties. -/
def insertRated (r : ProdRow × DistV) : List (ProdRow × DistV) → List (ProdRow × DistV)
  | [] => [r]
  | x :: xs => if DistV.ltB x.2 r.2 then x :: insertRated r xs else r :: x :: xs

/-- Stable sort by ascending distance (the order `nsmallest` selects from). -/
def sortRated : List (ProdRow × DistV) → List (ProdRow × DistV)
  | [] => []
  | x :: xs => insertRated x (sortRated xs)

/-- The rows of the products DataFrame paired with their distances
(`products["distance"] = products["embedding"].apply(_distance)`). -/
def ratedCandidates (target : List ℚ) (tbl : List VipProduct) : List (ProdRow × DistV) :=
  (loadProducts tbl).map (fun p => (p, rowDistance target p.embedding))

/-- The DataFrame after `replace(inf, nan)` and `dropna`: candidates whose
distance is finite. -/
def keptCandidates (target : List ℚ) (tbl : List VipProduct) : List (ProdRow × DistV) :=
  (ratedCandidates target tbl).filter (fun pr => pr.2 != DistV.inf)

/-- Embedding of `products.nsmallest(max(int(limit), 1), "distance")`: the first
`max(limit, 1)` rows of the stable ascending order. -/
def selectedCandidates (target : List ℚ) (tbl : List VipProduct) (limit : Int) :
    List (ProdRow × DistV) :=
  (sortRated (keptCandidates target tbl)).take (max limit 1).toNat

/-- A row of the result of `vector_similarity`. -/
structure SimRow where
  product_name : Option String
  brand_name : Option String
deriving DecidableEq, Repr

/-- Embedding of `DuckDBMirror.vector_similarity` (db_manager.py lines
524-588): unavailable mirrors raise; empty candidate sets (before or after
dropping infinite distances) yield an empty result; an uncoercible or empty
query vector raises `ValueError`; otherwise the `max(limit, 1)` nearest
candidates are returned in ascending distance order with the brand name
joined in memory. -/
def DuckDBMirror_vector_similarity (available : Bool) (prodTbl : List VipProduct)
    (brandTbl : List VipBrand) (query_vector : PyVal) (limit : Int) :
    Except String (List SimRow) :=
  if !available then .error "DuckDB fallback is not available"
  else
    let products := loadProducts prodTbl
    let brands := loadBrands brandTbl
    if products.isEmpty then .ok []
    else
      match coerce_vector query_vector with
      | none => .error "Query vector is empty or invalid"
      | some target =>
        if target.isEmpty then .error "Query vector is empty or invalid"
        else
          let kept := keptCandidates target prodTbl
          if kept.isEmpty then .ok []
          else
            .ok ((selectedCandidates target prodTbl limit).map
              (fun pr => ⟨pr.1.product_name, brandLookup brands pr.1.vip_brand_id⟩))

/-- When every call up to exhaustion fails with a transient operational
error, the retry loop makes exactly `maxRetries` calls, sleeps between
consecutive calls (when the interval is nonzero), and surfaces the last
error. -/
theorem runGo_all_fail {α : Type} (func : Nat → Except PyError α) (N : Nat) (interval : ℚ)
    (msg : Nat → String)
    (hFail : ∀ k, k < N → func k = .error (.operational (msg k)))
    (hTrans : ∀ k, k < N → isTransientMsg (msg k) = true) :
    ∀ fuel calls, calls + fuel = N → calls < N →
      runWithRetriesGo func N interval calls fuel =
        ⟨.error (.operational (msg (N - 1))), N - calls,
          if interval = 0 then [] else List.replicate (N - calls - 1) interval⟩ := by
  intro fuel
  induction fuel with
  | zero => intro calls h1 h2; omega
  | succ f ih =>
    intro calls h1 h2
    rw [runWithRetriesGo, hFail calls h2]
    simp only [hTrans calls h2, Bool.not_true, Bool.or_false]
    by_cases hc : N ≤ calls + 1
    · have e2 : calls = N - 1 := by omega
      have e3 : N - calls = 1 := by omega
      rw [e3, if_pos (show decide (N ≤ calls + 1) = true by simp [hc]), e2]
      simp
    · have hc' : ¬(decide (N ≤ calls + 1) = true) := by simpa using hc
      rw [if_neg hc']
      rw [ih (calls + 1) (by omega) (by omega)]
      have e4 : N - (calls + 1) + 1 = N - calls := by omega
      have e5 : N - calls - 1 = N - (calls + 1) - 1 + 1 := by omega
      by_cases hi : interval = 0
      · simp [hi, e4]
      · simp only [hi, if_neg hi, e4, e5, List.replicate_succ]
        simp

/-- C2: for every primary operation wrapped by `_run_with_retries` with
`max_retries = N ≥ 1`: (a) when every call fails with a transient
connectivity error, the loop retries with a sleep of `retry_interval`
between attempts (no sleep system call is made when the interval is zero),
makes exactly `N` attempts in total, and exhaustion raises the last error;
(b) an operational error whose message matches no transient signature is
raised to the caller after exactly one attempt, regardless of `N`;
(c) a transient failure is followed by a sleep and a retry: with `N ≥ 2`,
a transient first failure and a successful second call yield the success
after exactly two attempts and one sleep. -/
theorem c2_retry_policy {α : Type} (N : Nat) (interval : ℚ)
    (func func2 func3 : Nat → Except PyError α) (msg : Nat → String) (m0 : String) (v : α)
    (hN : 1 ≤ N)
    (hFail : ∀ k, k < N → func k = .error (.operational (msg k)))
    (hTrans : ∀ k, k < N → isTransientMsg (msg k) = true)
    (hNT1 : func2 0 = .error (.operational m0))
    (hNT2 : isTransientMsg m0 = false)
    (hRe1 : func3 0 = .error (.operational (msg 0)))
    (hRe2 : func3 1 = .ok v) :
    runWithRetries func N interval =
      ⟨.error (.operational (msg (N - 1))), N,
        if interval = 0 then [] else List.replicate (N - 1) interval⟩ ∧
    runWithRetries func2 N interval = ⟨.error (.operational m0), 1, []⟩ ∧
    (2 ≤ N → runWithRetries func3 N interval =
      ⟨.ok v, 2, if interval = 0 then [] else [interval]⟩) := by
  refine ⟨?_, ?_, ?_⟩
  · have h := runGo_all_fail func N interval msg hFail hTrans N 0 (by omega) (by omega)
    simpa using h
  · rw [runWithRetries, runWithRetriesGo, hNT1]
    simp [hNT2]
  · intro h2
    obtain ⟨f, rfl⟩ : ∃ f, N = f + 2 := ⟨N - 2, by omega⟩
    rw [runWithRetries, runWithRetriesGo, hRe1]
    have ht := hTrans 0 (by omega)
    simp only [ht, Bool.not_true, Bool.or_false]
    rw [if_neg (show ¬(decide (f + 2 ≤ 0 + 1) = true) by simp)]
    rw [runWithRetriesGo, hRe2]
    by_cases hi : interval = 0 <;> simp [hi]

/-- Witness for C2 at `N = 3`, `interval = 1`: three transient failures give
three attempts and two sleeps; a non-transient failure raises after one
attempt; a transient failure followed by success gives the success after two
attempts and one sleep. -/
theorem c2_retry_policy_witness :
    isTransientMsg "connection refused" = true ∧
    isTransientMsg "syntax error at or near" = false ∧
    runWithRetries (fun _ => (.error (.operational "connection refused") : Except PyError Nat)) 3 1 =
      ⟨.error (.operational "connection refused"), 3, [1, 1]⟩ ∧
    runWithRetries (fun _ => (.error (.operational "syntax error at or near") : Except PyError Nat)) 3 1 =
      ⟨.error (.operational "syntax error at or near"), 1, []⟩ ∧
    runWithRetries
      (fun k => if k = 0 then (.error (.operational "connection refused") : Except PyError Nat)
                else .ok 5) 3 1 =
      ⟨.ok 5, 2, [1]⟩ := by
  have h := c2_retry_policy 3 1
    (fun _ => (.error (.operational "connection refused") : Except PyError Nat))
    (fun _ => (.error (.operational "syntax error at or near") : Except PyError Nat))
    (fun k => if k = 0 then (.error (.operational "connection refused") : Except PyError Nat)
              else .ok 5)
    (fun _ => "connection refused") "syntax error at or near" 5
    (by decide) (fun k _ => rfl)
    (fun k _ => show isTransientMsg "connection refused" = true by decide)
    rfl (by decide) rfl rfl
  refine ⟨by decide, by decide, ?_, h.2.1, ?_⟩
  · have h1 := h.1
    norm_num at h1
    simpa [List.replicate] using h1
  · have h3 := h.2.2 (by omega)
    norm_num at h3
    exact h3

/-- C1: when the primary retry loop surfaces a transient operational error
and a mirror is configured, `query_df` calls `ensure_from_sql_dump`; if that
returns success and the mirror query of the same sql and params succeeds,
its result is returned instead of raising; if the mirror query fails, or the
rebuild fails (`ensure` returns false), the original primary error is
raised. -/
theorem c1_query_fallback {α : Type} (dbm : DBM α) (func : Nat → Except PyError α)
    (sql : String) (params : Params) (mir : MirrorIface α) (m : String)
    (hMir : dbm.mirror = some mir)
    (hErr : (runWithRetries func dbm.maxRetries dbm.retryInterval).result =
      .error (.operational m))
    (hTrans : isTransientMsg m = true) :
    REvent.ensureFromDump ∈ (dbm.query_df func sql params).2 ∧
    (mir.ensure = true → ∀ df, mir.queryDf sql params = .ok df →
      (dbm.query_df func sql params).1 = .ok df ∧
      REvent.mirrorQuery sql params ∈ (dbm.query_df func sql params).2) ∧
    (mir.ensure = true → ∀ e, mir.queryDf sql params = .error e →
      (dbm.query_df func sql params).1 = .error (.operational m)) ∧
    (mir.ensure = false → (dbm.query_df func sql params).1 = .error (.operational m)) := by
  unfold DBM.query_df
  dsimp only
  rw [hErr, hMir]
  simp only [hTrans, if_true]
  refine ⟨?_, ?_, ?_, ?_⟩
  · cases hens : mir.ensure
    · simp
    · cases hq : mir.queryDf sql params <;> simp
  · intro hens df hq
    simp [hens, hq]
  · intro hens e hq
    simp [hens, hq]
  · intro hens
    simp [hens]

/-- Witness for C1: a primary that always fails with "connection refused"
and a ready mirror whose query returns 42; `query_df` returns the mirror
result; with a failing mirror query or a failed rebuild, the original
primary error is surfaced. -/
theorem c1_query_fallback_witness :
    (runWithRetries (fun _ => (.error (.operational "connection refused") : Except PyError Nat))
        3 1).result = .error (.operational "connection refused") ∧
    isTransientMsg "connection refused" = true ∧
    (DBM.query_df ⟨3, 1, some ⟨true, fun _ _ => .ok 42, fun _ _ => .ok 7⟩⟩
        (fun _ => .error (.operational "connection refused")) "SELECT 1" []).1 = .ok 42 ∧
    REvent.mirrorQuery "SELECT 1" [] ∈
      (DBM.query_df ⟨3, 1, some ⟨true, fun _ _ => .ok 42, fun _ _ => .ok 7⟩⟩
        (fun _ => .error (.operational "connection refused")) "SELECT 1" []).2 ∧
    (DBM.query_df ⟨3, 1, some ⟨false, fun _ _ => .ok 42, fun _ _ => .ok 7⟩⟩
        (fun _ => .error (.operational "connection refused")) "SELECT 1" []).1 =
      .error (.operational "connection refused") := by
  have h1 := c1_query_fallback (α := Nat)
    ⟨3, 1, some ⟨true, fun _ _ => .ok 42, fun _ _ => .ok 7⟩⟩
    (fun _ => .error (.operational "connection refused")) "SELECT 1" []
    ⟨true, fun _ _ => .ok 42, fun _ _ => .ok 7⟩ "connection refused"
    rfl rfl (by decide)
  have h2 := c1_query_fallback (α := Nat)
    ⟨3, 1, some ⟨false, fun _ _ => .ok 42, fun _ _ => .ok 7⟩⟩
    (fun _ => .error (.operational "connection refused")) "SELECT 1" []
    ⟨false, fun _ _ => .ok 42, fun _ _ => .ok 7⟩ "connection refused"
    rfl rfl (by decide)
  refine ⟨rfl, by decide, ?_, ?_, ?_⟩
  · exact (h1.2.1 rfl 42 rfl).1
  · exact (h1.2.1 rfl 42 rfl).2
  · exact h2.2.2.2 rfl

/-- C10: `execute` never falls back to the mirror: even when a mirror is
configured and the retry loop surfaces a transient operational error, the
error propagates to the caller, and no mirror interaction (no
`ensure_from_sql_dump`, no mirror query) ever occurs on the execute path. -/
theorem c10_execute_never_mirrors (dbm : DBM Unit) (func : Nat → Except PyError Unit)
    (mir : MirrorIface Unit) (m : String)
    (hMir : dbm.mirror = some mir)
    (hErr : (runWithRetries func dbm.maxRetries dbm.retryInterval).result =
      .error (.operational m))
    (hTrans : isTransientMsg m = true) :
    (dbm.execute func).1 = .error (.operational m) ∧
    (dbm.execute func).2 = [] ∧
    REvent.ensureFromDump ∉ (dbm.execute func).2 ∧
    (∀ sql params, REvent.mirrorQuery sql params ∉ (dbm.execute func).2) := by
  refine ⟨hErr, rfl, by simp [DBM.execute], by intro sql params; simp [DBM.execute]⟩

/-- Witness for C10: a ready mirror is configured and the primary always
fails with "connection refused"; `execute` still surfaces the primary error
and produces no mirror events. -/
theorem c10_execute_never_mirrors_witness :
    (DBM.execute ⟨2, 1, some ⟨true, fun _ _ => .ok (), fun _ _ => .ok ()⟩⟩
        (fun _ => .error (.operational "connection refused"))).1 =
      .error (.operational "connection refused") ∧
    (DBM.execute ⟨2, 1, some ⟨true, fun _ _ => .ok (), fun _ _ => .ok ()⟩⟩
        (fun _ => .error (.operational "connection refused"))).2 = [] := by
  have h := c10_execute_never_mirrors
    ⟨2, 1, some ⟨true, fun _ _ => .ok (), fun _ _ => .ok ()⟩⟩
    (fun _ => .error (.operational "connection refused"))
    ⟨true, fun _ _ => .ok (), fun _ _ => .ok ()⟩ "connection refused"
    rfl rfl (by decide)
  exact ⟨h.1, h.2.1⟩

/-- C4 counterexample: `execute` succeeds against the primary but the router
does not call `maybe_sync_from_sql_dump` on this path (the source of
`DBManager.execute` consists solely of the `_run_with_retries` call), so the
claim that every successful primary operation is followed by a mirror sync
is false for `execute`. -/
theorem c4_execute_no_sync_counterexample :
    (DBM.execute ⟨3, 1, some ⟨true, fun _ _ => .ok (), fun _ _ => .ok ()⟩⟩
        (fun _ => .ok ())).1 = .ok () ∧
    REvent.maybeSync ∉
      (DBM.execute ⟨3, 1, some ⟨true, fun _ _ => .ok (), fun _ _ => .ok ()⟩⟩
        (fun _ => .ok ())).2 := by
  exact ⟨rfl, by simp [DBM.execute]⟩

/-- C4 amended: after every successful primary `query_df` and
`vector_similarity`, the router calls the mirror's `maybe_sync_from_sql_dump`
before returning; `execute` never does, even on success. -/
theorem c4_sync_after_success_amended {α : Type} (dbm : DBM α)
    (func : Nat → Except PyError α) (sql : String) (params : Params)
    (q : List ℚ) (limit : Int) (df : α)
    (hOk : (runWithRetries func dbm.maxRetries dbm.retryInterval).result = .ok df) :
    dbm.query_df func sql params = (.ok df, [REvent.maybeSync]) ∧
    dbm.vector_similarity func q limit = (.ok df, [REvent.maybeSync]) ∧
    (∀ (dbm2 : DBM Unit) (f2 : Nat → Except PyError Unit),
      REvent.maybeSync ∉ (dbm2.execute f2).2) := by
  refine ⟨?_, ?_, ?_⟩
  · unfold DBM.query_df
    dsimp only
    rw [hOk]
  · unfold DBM.vector_similarity
    dsimp only
    rw [hOk]
  · intro dbm2 f2
    simp [DBM.execute]

/-- Witness for C4 (amended): a succeeding primary with a configured mirror;
both read operations end with exactly one `maybeSync` event. -/
theorem c4_sync_after_success_amended_witness :
    DBM.query_df ⟨3, 1, some ⟨true, fun _ _ => .ok 5, fun _ _ => .ok 7⟩⟩
        (fun _ => .ok 5) "SELECT 1" [] = (.ok 5, [REvent.maybeSync]) ∧
    DBM.vector_similarity ⟨3, 1, some ⟨true, fun _ _ => .ok 5, fun _ _ => .ok 7⟩⟩
        (fun _ => .ok 5) [0, 1] 5 = (.ok 5, [REvent.maybeSync]) := by
  have h := c4_sync_after_success_amended (α := Nat)
    ⟨3, 1, some ⟨true, fun _ _ => .ok 5, fun _ _ => .ok 7⟩⟩
    (fun _ => .ok 5) "SELECT 1" [] [0, 1] 5 5 rfl
  exact ⟨h.1, h.2.1⟩

/-- A mirror supposed stale-proof: a nonzero recorded dump mtime equal to the
current dump mtime, but the secondary file is missing. -/
def mC5 : Mirror := ⟨["items"], some "dump.sql", true, true, 300, 50, 5, false⟩

/-- Filesystem for the C5 counterexample: dump present with mtime equal to
the recorded one, secondary file missing, loading would succeed. -/
def fsC5 : FS := ⟨true, 5, none, some ⟨["items"], true⟩⟩

/-- C5 counterexample: a non-forced `sync_from_sql_dump` whose dump mtime
equals the recorded `_last_dump_mtime` nevertheless rebuilds, because the
freshness check additionally requires the secondary file to exist
(`os.path.exists(self.path)`): the call returns true, mutates the
filesystem (the dump is re-read and the secondary file is created), and does
not return the prior readiness (which was false). -/
theorem c5_equal_mtime_counterexample :
    fsC5.dumpMtime ≤ mC5.last_dump_mtime ∧ mC5.last_dump_mtime ≠ 0 ∧
    (mC5.sync_from_sql_dump fsC5 100 false).1 = true ∧
    mC5.is_ready fsC5 = false ∧
    (mC5.sync_from_sql_dump fsC5 100 false).2.2 ≠ fsC5 := by
  decide

/-- C5 amended: a non-forced `sync_from_sql_dump` on an available mirror
with a configured, existing dump whose mtime is at most the (nonzero)
recorded `_last_dump_mtime`, and whose secondary file exists, performs no
rebuild: the filesystem is untouched, both timestamps are unchanged, and the
call returns the mirror's current readiness. -/
theorem c5_skip_amended (m : Mirror) (fs : FS) (now : ℚ)
    (hAvail : m.available = true) (hPath : m.sql_dump_path ≠ none)
    (hDump : fs.dumpExists = true) (hLast : m.last_dump_mtime ≠ 0)
    (hMtime : fs.dumpMtime ≤ m.last_dump_mtime) (hFile : fs.mirrorFile ≠ none) :
    m.sync_from_sql_dump fs now false =
      (m.is_ready fs, { m with warned_missing_dump := false }, fs) := by
  obtain ⟨tb, sp, av, asy, si, ls, ld, wd⟩ := m
  dsimp only at hAvail hPath hLast hMtime ⊢
  subst hAvail
  cases sp with
  | none => exact absurd rfl hPath
  | some p =>
    unfold Mirror.sync_from_sql_dump
    simp [hDump, hLast, hMtime, hFile, Mirror.is_ready]

/-- Witness for C5 (amended): the skip branch at a concrete ready state. -/
theorem c5_skip_amended_witness :
    Mirror.sync_from_sql_dump ⟨["items"], some "dump.sql", true, true, 300, 50, 5, false⟩
        ⟨true, 5, some ⟨["items"], true⟩, some ⟨["items"], true⟩⟩ 100 false =
      (true, ⟨["items"], some "dump.sql", true, true, 300, 50, 5, false⟩,
        ⟨true, 5, some ⟨["items"], true⟩, some ⟨["items"], true⟩⟩) := by
  have h := c5_skip_amended ⟨["items"], some "dump.sql", true, true, 300, 50, 5, false⟩
    ⟨true, 5, some ⟨["items"], true⟩, some ⟨["items"], true⟩⟩ 100
    rfl (by decide) rfl (by decide) (by decide) (by decide)
  rw [h]
  decide

/-- After any `sync_from_sql_dump`, the recorded dump mtime is either
unchanged or equal to the current dump mtime. -/
theorem sync_mtime_eq_or (m : Mirror) (fs : FS) (now : ℚ) (force : Bool) :
    (m.sync_from_sql_dump fs now force).2.1.last_dump_mtime = m.last_dump_mtime ∨
    (m.sync_from_sql_dump fs now force).2.1.last_dump_mtime = fs.dumpMtime := by
  unfold Mirror.sync_from_sql_dump
  dsimp only
  repeat' split
  all_goals first | exact Or.inl rfl | exact Or.inr rfl

/-- Under a non-forced sync with the secondary file present and a nonzero
recorded dump mtime, the recorded dump mtime cannot decrease: either the
freshness check skips the rebuild, or the dump is strictly newer. -/
theorem sync_mtime_mono (m : Mirror) (fs : FS) (now : ℚ)
    (hFile : fs.mirrorFile ≠ none) (hLast : m.last_dump_mtime ≠ 0) :
    m.last_dump_mtime ≤ (m.sync_from_sql_dump fs now false).2.1.last_dump_mtime := by
  unfold Mirror.sync_from_sql_dump
  dsimp only
  repeat' split
  any_goals exact le_refl _
  next hskip _ _ _ =>
    push_neg at hskip
    have h := hskip (by simp) hLast
    exact le_of_lt (lt_of_not_le fun hc => hFile (h hc))

/-- C6 counterexample: a forced rebuild from an older dump (mtime 3) lowers
`_last_dump_mtime` from 5 to 3, so the field is not monotonically
non-decreasing. -/
theorem c6_forced_decrease_counterexample :
    (Mirror.sync_from_sql_dump ⟨["items"], some "dump.sql", true, true, 300, 50, 5, false⟩
        ⟨true, 3, some ⟨["items"], true⟩, some ⟨["items"], true⟩⟩ 100 true).2.1.last_dump_mtime <
      (⟨["items"], some "dump.sql", true, true, 300, 50, 5, false⟩ : Mirror).last_dump_mtime := by
  decide

/-- C6 amended: `_last_dump_mtime` never changes except to the dump's
current modification time upon a successful rebuild; under non-forced syncs
(directly or through `maybe_sync_from_sql_dump`) with the secondary file
present and a nonzero recorded value it is non-decreasing; forced rebuilds
(`force=True`, including through `ensure_from_sql_dump`) may lower it to an
older dump's mtime. -/
theorem c6_mtime_amended (m : Mirror) (fs : FS) (now : ℚ) (force : Bool) :
    ((m.sync_from_sql_dump fs now force).2.1.last_dump_mtime = m.last_dump_mtime ∨
      (m.sync_from_sql_dump fs now force).2.1.last_dump_mtime = fs.dumpMtime) ∧
    ((m.ensure_from_sql_dump fs now).2.1.last_dump_mtime = m.last_dump_mtime ∨
      (m.ensure_from_sql_dump fs now).2.1.last_dump_mtime = fs.dumpMtime) ∧
    ((m.maybe_sync_from_sql_dump fs now).1.last_dump_mtime = m.last_dump_mtime ∨
      (m.maybe_sync_from_sql_dump fs now).1.last_dump_mtime = fs.dumpMtime) ∧
    (fs.mirrorFile ≠ none → m.last_dump_mtime ≠ 0 →
      m.last_dump_mtime ≤ (m.sync_from_sql_dump fs now false).2.1.last_dump_mtime) ∧
    (fs.mirrorFile ≠ none → m.last_dump_mtime ≠ 0 →
      m.last_dump_mtime ≤ (m.maybe_sync_from_sql_dump fs now).1.last_dump_mtime) := by
  refine ⟨sync_mtime_eq_or m fs now force, ?_, ?_,
    fun h1 h2 => sync_mtime_mono m fs now h1 h2, ?_⟩
  · unfold Mirror.ensure_from_sql_dump
    split
    · exact Or.inl rfl
    · split
      · exact Or.inl rfl
      · exact sync_mtime_eq_or m fs now true
  · unfold Mirror.maybe_sync_from_sql_dump
    dsimp only
    split
    · exact Or.inl rfl
    · split
      · exact Or.inl rfl
      · exact sync_mtime_eq_or m fs now false
  · intro h1 h2
    unfold Mirror.maybe_sync_from_sql_dump
    dsimp only
    split
    · exact le_refl _
    · split
      · exact le_refl _
      · exact sync_mtime_mono m fs now h1 h2

/-- Witness for C6 (amended) at a concrete state with the secondary file
present and recorded mtime 5 against a newer dump (mtime 9). -/
theorem c6_mtime_amended_witness :
    ((⟨true, 9, some ⟨["items"], true⟩, some ⟨["items"], true⟩⟩ : FS).mirrorFile ≠ none) ∧
    ((⟨["items"], some "dump.sql", true, true, 300, 50, 5, false⟩ : Mirror).last_dump_mtime ≠ 0) ∧
    (⟨["items"], some "dump.sql", true, true, 300, 50, 5, false⟩ : Mirror).last_dump_mtime ≤
      (Mirror.sync_from_sql_dump ⟨["items"], some "dump.sql", true, true, 300, 50, 5, false⟩
        ⟨true, 9, some ⟨["items"], true⟩, some ⟨["items"], true⟩⟩ 100 false).2.1.last_dump_mtime := by
  refine ⟨by decide, by decide, ?_⟩
  exact (c6_mtime_amended ⟨["items"], some "dump.sql", true, true, 300, 50, 5, false⟩
    ⟨true, 9, some ⟨["items"], true⟩, some ⟨["items"], true⟩⟩ 100 false).2.2.2.1
    (by decide) (by decide)

/-- C7: whenever a rebuild attempt reaches `_load_sql_dump` and loading
raises (modelled `fs.loadResult = none`), `sync_from_sql_dump` catches the
exception and returns `False`: the secondary file and the whole filesystem
are untouched, and `_last_sync` and `_last_dump_mtime` keep their previous
values (only the missing-dump warning throttle is reset). -/
theorem c7_load_failure (m : Mirror) (fs : FS) (now : ℚ) (force : Bool)
    (hAttempt : m.attemptsRebuild fs force) (hLoad : fs.loadResult = none) :
    m.sync_from_sql_dump fs now force = (false, { m with warned_missing_dump := false }, fs) ∧
    (m.sync_from_sql_dump fs now force).2.1.last_sync = m.last_sync ∧
    (m.sync_from_sql_dump fs now force).2.1.last_dump_mtime = m.last_dump_mtime ∧
    (m.sync_from_sql_dump fs now force).2.2.mirrorFile = fs.mirrorFile := by
  obtain ⟨hAv, hPath, hDump, hOr⟩ := hAttempt
  obtain ⟨tb, sp, av, asy, si, ls, ld, wd⟩ := m
  dsimp only at hAv hPath hOr ⊢
  subst hAv
  cases sp with
  | none => exact absurd rfl hPath
  | some p =>
    have hskip : ¬((!force) = true ∧ ld ≠ 0 ∧ fs.dumpMtime ≤ ld ∧ fs.mirrorFile ≠ none) := by
      rcases hOr with h | h
      · subst h; simp
      · exact fun hc => h ⟨hc.2.1, hc.2.2.1, hc.2.2.2⟩
    have hskip' : ¬(force = false ∧ ¬ld = 0 ∧ fs.dumpMtime ≤ ld ∧ ¬fs.mirrorFile = none) := by
      intro hc
      exact hskip ⟨by simp [hc.1], hc.2.1, hc.2.2.1, hc.2.2.2⟩
    unfold Mirror.sync_from_sql_dump
    simp [hDump, hskip', hLoad]

/-- Witness for C7: a forced rebuild whose load raises returns false and
leaves the state untouched. -/
theorem c7_load_failure_witness :
    Mirror.attemptsRebuild ⟨["items"], some "dump.sql", true, true, 300, 50, 5, true⟩
      ⟨true, 9, some ⟨["items"], true⟩, none⟩ true ∧
    Mirror.sync_from_sql_dump ⟨["items"], some "dump.sql", true, true, 300, 50, 5, true⟩
        ⟨true, 9, some ⟨["items"], true⟩, none⟩ 100 true =
      (false, ⟨["items"], some "dump.sql", true, true, 300, 50, 5, false⟩,
        ⟨true, 9, some ⟨["items"], true⟩, none⟩) := by
  refine ⟨by decide, ?_⟩
  exact (c7_load_failure ⟨["items"], some "dump.sql", true, true, 300, 50, 5, true⟩
    ⟨true, 9, some ⟨["items"], true⟩, none⟩ 100 true (by decide) rfl).1

/-- C9 counterexample: a mirror with the dependency present but no dump
source configured (`sql_dump_path = None`) is "Unconfigured" per the claim,
yet `is_ready` returns true when a previously built secondary file with the
required tables exists, and `ensure_from_sql_dump` then returns true as
well (the claim asserts both are always false in this state). -/
theorem c9_unconfigured_counterexample :
    (⟨["items"], none, true, true, 300, 0, 0, false⟩ : Mirror).is_ready
        ⟨true, 5, some ⟨["items"], true⟩, some ⟨["items"], true⟩⟩ = true ∧
    (Mirror.ensure_from_sql_dump ⟨["items"], none, true, true, 300, 0, 0, false⟩
        ⟨true, 5, some ⟨["items"], true⟩, some ⟨["items"], true⟩⟩ 100).1 = true := by
  decide

/-- C9 amended: when the embedded-engine dependency is absent
(`available = false`), `is_ready` is always false and all three sync
operations are no-ops returning false.  When the dependency is present but
no dump source path is configured, `sync_from_sql_dump` and
`maybe_sync_from_sql_dump` never rebuild (the filesystem is unchanged) and
sync returns false, but `is_ready` reflects the on-disk secondary file and
may be true, and `ensure_from_sql_dump` returns that readiness without
rebuilding. -/
theorem c9_unconfigured_amended (m : Mirror) (fs : FS) (now : ℚ) (force : Bool) :
    (m.available = false →
      m.is_ready fs = false ∧
      m.sync_from_sql_dump fs now force = (false, m, fs) ∧
      m.maybe_sync_from_sql_dump fs now = (m, fs) ∧
      m.ensure_from_sql_dump fs now = (false, m, fs)) ∧
    (m.available = true → m.sql_dump_path = none →
      (m.sync_from_sql_dump fs now force).1 = false ∧
      (m.sync_from_sql_dump fs now force).2.2 = fs ∧
      (m.maybe_sync_from_sql_dump fs now).2 = fs ∧
      (m.ensure_from_sql_dump fs now).1 = m.is_ready fs ∧
      (m.ensure_from_sql_dump fs now).2.2 = fs) := by
  constructor
  · intro hAv
    refine ⟨?_, ?_, ?_, ?_⟩
    · unfold Mirror.is_ready
      simp [hAv]
    · unfold Mirror.sync_from_sql_dump
      simp [hAv]
    · unfold Mirror.maybe_sync_from_sql_dump
      simp [hAv]
    · unfold Mirror.ensure_from_sql_dump
      simp [hAv]
  · intro hAv hPath
    have hsync : m.sync_from_sql_dump fs now force =
        (false, { m with warned_missing_dump := true }, fs) := by
      unfold Mirror.sync_from_sql_dump
      rw [hPath]
      simp [hAv]
    have hsyncF : m.sync_from_sql_dump fs now false =
        (false, { m with warned_missing_dump := true }, fs) := by
      unfold Mirror.sync_from_sql_dump
      rw [hPath]
      simp [hAv]
    refine ⟨by rw [hsync], by rw [hsync], ?_, ?_, ?_⟩
    · unfold Mirror.maybe_sync_from_sql_dump
      split
      · rfl
      · split
        · rfl
        · rw [hsyncF]
    · unfold Mirror.ensure_from_sql_dump
      simp only [hAv, Bool.not_true, Bool.false_eq_true, if_false]
      split
      · next hready => simp [hready]
      · next hready =>
        rw [show m.sync_from_sql_dump fs now true =
            (false, { m with warned_missing_dump := true }, fs) from by
          unfold Mirror.sync_from_sql_dump
          rw [hPath]
          simp [hAv]]
        simp only []
        simp at hready
        simp [hready]
    · unfold Mirror.ensure_from_sql_dump
      simp only [hAv, Bool.not_true, Bool.false_eq_true, if_false]
      split
      · rfl
      · rw [show m.sync_from_sql_dump fs now true =
            (false, { m with warned_missing_dump := true }, fs) from by
          unfold Mirror.sync_from_sql_dump
          rw [hPath]
          simp [hAv]]

/-- Witness for C9 (amended): a dependency-absent mirror reports not ready
and its forced sync is a no-op returning false; a dependency-present mirror
without a configured dump path returns false from sync and returns its
current readiness from ensure. -/
theorem c9_unconfigured_amended_witness :
    (⟨["items"], some "dump.sql", false, true, 300, 0, 0, false⟩ : Mirror).is_ready
        ⟨true, 5, some ⟨["items"], true⟩, some ⟨["items"], true⟩⟩ = false ∧
    Mirror.sync_from_sql_dump ⟨["items"], some "dump.sql", false, true, 300, 0, 0, false⟩
        ⟨true, 5, some ⟨["items"], true⟩, some ⟨["items"], true⟩⟩ 100 true =
      (false, ⟨["items"], some "dump.sql", false, true, 300, 0, 0, false⟩,
        ⟨true, 5, some ⟨["items"], true⟩, some ⟨["items"], true⟩⟩) ∧
    (Mirror.sync_from_sql_dump ⟨["items"], none, true, true, 300, 0, 0, false⟩
        ⟨true, 5, some ⟨["items"], true⟩, some ⟨["items"], true⟩⟩ 100 true).1 = false ∧
    (Mirror.ensure_from_sql_dump ⟨["items"], none, true, true, 300, 0, 0, false⟩
        ⟨true, 5, some ⟨["items"], true⟩, some ⟨["items"], true⟩⟩ 100).1 =
      (⟨["items"], none, true, true, 300, 0, 0, false⟩ : Mirror).is_ready
        ⟨true, 5, some ⟨["items"], true⟩, some ⟨["items"], true⟩⟩ := by
  have h1 := (c9_unconfigured_amended
    ⟨["items"], some "dump.sql", false, true, 300, 0, 0, false⟩
    ⟨true, 5, some ⟨["items"], true⟩, some ⟨["items"], true⟩⟩ 100 true).1 rfl
  have h2 := (c9_unconfigured_amended
    ⟨["items"], none, true, true, 300, 0, 0, false⟩
    ⟨true, 5, some ⟨["items"], true⟩, some ⟨["items"], true⟩⟩ 100 true).2 rfl rfl
  exact ⟨h1.1, h1.2.1, h2.1, h2.2.2.2.1⟩

/-- Joining a single accumulated line is that line. -/
theorem joinLines_singleton (x : String) : joinLines [x] = x := by
  simp [joinLines, List.intercalate]
  rfl

/-- Lines that neither end (after trailing-whitespace strip) with `;` nor
start with `--` are only accumulated by the statement loop: processing them
moves them from the input to the accumulator without emitting anything. -/
theorem iterGo_statement_accum (rs : List String) :
    ∀ (acc tail : List String),
      (∀ r ∈ rs, strEndsWith (strRStripWS r) ";" = false ∧
        strStartsWith (strLStrip r) "--" = false) →
      iterGo (rs ++ tail) acc none = iterGo tail (acc ++ rs) none := by
  induction rs with
  | nil => intro acc tail h; simp
  | cons r rs ih =>
    intro acc tail h
    have hr := h r (by simp)
    rw [List.cons_append, iterGo]
    simp only [hr.1, hr.2, Bool.and_false, if_false]
    rw [ih (acc ++ [r]) tail (fun x hx => h x (by simp [hx]))]
    simp

/-- C8 counterexample: a bulk-load header that passes the `COPY `/`from
stdin` screen but fails the `_parse_copy_command` regex (here because of a
`WITH` clause after `stdin`).  The parser does not enter block mode, so the
block's rows are not discarded: they accumulate as statement text and are
emitted, together with the block terminator and the following statement, as
one spurious SQL entry — the next entry after the block is not emitted
normally. -/
theorem c8_malformed_copy_counterexample :
    parseCopyCommand "COPY items FROM stdin WITH (FORMAT csv);" = none ∧
    iterateDumpEntries ["COPY items FROM stdin WITH (FORMAT csv);", "A\tWidget", "\\.",
        "INSERT INTO shops VALUES (1);"] =
      [DumpEntry.sql "A\tWidget\n\\.\nINSERT INTO shops VALUES (1);"] ∧
    DumpEntry.sql "INSERT INTO shops VALUES (1);" ∉
      iterateDumpEntries ["COPY items FROM stdin WITH (FORMAT csv);", "A\tWidget", "\\.",
        "INSERT INTO shops VALUES (1);"] := by
  refine ⟨by decide, by decide, by decide⟩

/-- Processing the block terminator line in statement mode (no block was
entered) merely accumulates it; the following `;`-terminated line then emits
everything accumulated as one SQL entry. -/
theorem iterGo_term_then_stmt (s : String) (rs : List String)
    (hS : strEndsWith (strRStripWS s) ";" = true)
    (hJoin : ¬ strTrim (joinLines (rs ++ ["\\.", s])) = "")
    (hJoinNotCopy :
      strStartsWith (strToUpper (strTrim (joinLines (rs ++ ["\\.", s])))) "COPY " = false) :
    iterGo ["\\.", s] rs none = [DumpEntry.sql (strTrim (joinLines (rs ++ ["\\.", s])))] := by
  rw [iterGo]
  have h1 : (rs.isEmpty && strStartsWith (strLStrip "\\.") "--") = false := by
    rw [show strStartsWith (strLStrip "\\.") "--" = false from by decide, Bool.and_false]
  rw [h1]
  simp only [Bool.false_eq_true, if_false,
    show strEndsWith (strRStripWS "\\.") ";" = false from by decide]
  rw [iterGo]
  have h2 : ((rs ++ ["\\."]).isEmpty && strStartsWith (strLStrip s) "--") = false := by
    rw [show (rs ++ ["\\."]).isEmpty = false from by cases rs <;> simp, Bool.false_and]
  rw [h2]
  simp only [Bool.false_eq_true, if_false, List.append_assoc, List.cons_append,
    List.nil_append, hS, if_true]
  rw [if_neg hJoin]
  simp only [hJoinNotCopy, Bool.false_and, Bool.false_eq_true, if_false]
  rw [iterGo]

/-- C8 amended: on a bulk-load header that the COPY regex rejects, the
parser logs and `continue`s without entering block mode; it raises no error
and keeps consuming input, but the block's data rows are not discarded:
they are accumulated as ordinary statement text and emitted (together with
the block terminator and everything up to the next `;`-terminated line) as
a single spurious SQL statement. -/
theorem c8_malformed_copy_amended (hdr s : String) (rs : List String)
    (hHdrSemi : strEndsWith (strRStripWS hdr) ";" = true)
    (hHdrNoComment : strStartsWith (strLStrip hdr) "--" = false)
    (hHdrStmt : ¬ strTrim hdr = "")
    (hHdrCopy : strStartsWith (strToUpper (strTrim hdr)) "COPY " = true)
    (hHdrStdin : strContains (strToLower (strTrim hdr)) "from stdin" = true)
    (hHdrBad : parseCopyCommand (strTrim hdr) = none)
    (hRows : ∀ r ∈ rs, strEndsWith (strRStripWS r) ";" = false ∧
      strStartsWith (strLStrip r) "--" = false)
    (hS : strEndsWith (strRStripWS s) ";" = true)
    (hJoin : ¬ strTrim (joinLines (rs ++ ["\\.", s])) = "")
    (hJoinNotCopy :
      strStartsWith (strToUpper (strTrim (joinLines (rs ++ ["\\.", s])))) "COPY " = false) :
    iterateDumpEntries (hdr :: (rs ++ ["\\.", s])) =
      [DumpEntry.sql (strTrim (joinLines (rs ++ ["\\.", s])))] := by
  unfold iterateDumpEntries
  rw [iterGo]
  simp only [List.isEmpty_nil, hHdrNoComment, Bool.and_false, Bool.false_eq_true, if_false,
    List.nil_append, hHdrSemi, if_true, joinLines_singleton]
  rw [if_neg hHdrStmt]
  simp only [hHdrCopy, hHdrStdin, Bool.and_self, if_true, hHdrBad]
  rw [iterGo_statement_accum rs ([] : List String) ["\\.", s] hRows, List.nil_append]
  exact iterGo_term_then_stmt s rs hS hJoin hJoinNotCopy

/-- Witness for C8 (amended) on a concrete malformed header, one data row,
the terminator, and a following INSERT statement. -/
theorem c8_malformed_copy_amended_witness :
    parseCopyCommand (strTrim "COPY items FROM stdin WITH (FORMAT csv);") = none ∧
    iterateDumpEntries ("COPY items FROM stdin WITH (FORMAT csv);" ::
        (["A\tWidget"] ++ ["\\.", "INSERT INTO shops VALUES (1);"])) =
      [DumpEntry.sql (strTrim (joinLines
        (["A\tWidget"] ++ ["\\.", "INSERT INTO shops VALUES (1);"])))] := by
  refine ⟨by decide, ?_⟩
  exact c8_malformed_copy_amended "COPY items FROM stdin WITH (FORMAT csv);"
    "INSERT INTO shops VALUES (1);" ["A\tWidget"]
    (by decide) (by decide) (by decide) (by decide) (by decide) (by decide)
    (by decide) (by decide) (by decide) (by decide)

/-- Reflexivity of `leB`. -/
theorem DistV.leB_refl (a : DistV) : DistV.leB a a = true := by
  cases a <;> simp [DistV.leB]

/-- Irreflexivity of `ltB`. -/
theorem DistV.ltB_self (a : DistV) : DistV.ltB a a = false := by
  cases a <;> simp [DistV.ltB]

/-- A strict comparison implies the non-strict one. -/
theorem DistV.leB_of_ltB {a b : DistV} (h : DistV.ltB a b = true) : DistV.leB a b = true := by
  cases a <;> cases b <;> simp_all [DistV.ltB, DistV.leB] <;> exact le_of_lt h

/-- Totality: a failed strict comparison yields the reversed non-strict one. -/
theorem DistV.leB_of_ltB_false {a b : DistV} (h : DistV.ltB a b = false) :
    DistV.leB b a = true := by
  cases a <;> cases b <;> simp_all [DistV.ltB, DistV.leB]

/-- Transitivity of `leB`. -/
theorem DistV.leB_trans {a b c : DistV} (h1 : DistV.leB a b = true)
    (h2 : DistV.leB b c = true) : DistV.leB a c = true := by
  cases a <;> cases b <;> cases c <;> simp_all [DistV.leB]
  exact le_trans h1 h2

/-- Stable insertion permutes: the result contains the new row and the old
rows. -/
theorem insertRated_perm (r : ProdRow × DistV) (l : List (ProdRow × DistV)) :
    (insertRated r l).Perm (r :: l) := by
  induction l with
  | nil => exact List.Perm.refl _
  | cons x xs ih =>
    unfold insertRated
    by_cases hlt : DistV.ltB x.2 r.2 = true
    · rw [if_pos hlt]
      exact (ih.cons x).trans (List.Perm.swap r x xs)
    · rw [if_neg hlt]

/-- The stable sort is a permutation of its input. -/
theorem sortRated_perm (l : List (ProdRow × DistV)) : (sortRated l).Perm l := by
  induction l with
  | nil => exact List.Perm.refl _
  | cons x xs ih =>
    exact (insertRated_perm x (sortRated xs)).trans (ih.cons x)

/-- Inserting into a list sorted by `leB` keeps it sorted. -/
theorem pairwise_insertRated (r : ProdRow × DistV) (l : List (ProdRow × DistV))
    (h : l.Pairwise (fun a b => DistV.leB a.2 b.2 = true)) :
    (insertRated r l).Pairwise (fun a b => DistV.leB a.2 b.2 = true) := by
  induction l with
  | nil => simp [insertRated]
  | cons x xs ih =>
    rw [List.pairwise_cons] at h
    unfold insertRated
    by_cases hlt : DistV.ltB x.2 r.2 = true
    · rw [if_pos hlt]
      rw [List.pairwise_cons]
      refine ⟨?_, ih h.2⟩
      intro y hy
      rcases List.mem_cons.mp ((insertRated_perm r xs).mem_iff.mp hy) with hy1 | hy2
      · subst hy1
        exact DistV.leB_of_ltB hlt
      · exact h.1 y hy2
    · rw [if_neg hlt]
      rw [List.pairwise_cons]
      refine ⟨?_, List.pairwise_cons.mpr h⟩
      intro y hy
      rcases List.mem_cons.mp hy with hy1 | hy2
      · subst hy1
        exact DistV.leB_of_ltB_false (by simpa using hlt)
      · exact DistV.leB_trans (DistV.leB_of_ltB_false (by simpa using hlt)) (h.1 y hy2)

/-- The stable sort is sorted by non-decreasing distance. -/
theorem sortRated_sorted (l : List (ProdRow × DistV)) :
    (sortRated l).Pairwise (fun a b => DistV.leB a.2 b.2 = true) := by
  induction l with
  | nil => simp [sortRated]
  | cons x xs ih => exact pairwise_insertRated x (sortRated xs) ih

/-- Stability of the insertion step: filtering by any fixed distance value
commutes with insertion, with the new row placed in front of equal-distance
rows (earlier rows won the comparison strictly). -/
theorem insertRated_filter (r : ProdRow × DistV) (l : List (ProdRow × DistV)) (d : DistV) :
    (insertRated r l).filter (fun x => x.2 == d) =
      if r.2 == d then r :: l.filter (fun x => x.2 == d)
      else l.filter (fun x => x.2 == d) := by
  induction l with
  | nil =>
    simp [insertRated, List.filter_cons]
  | cons x xs ih =>
    unfold insertRated
    by_cases hlt : DistV.ltB x.2 r.2 = true
    · rw [if_pos hlt]
      by_cases hr : (r.2 == d) = true
      · have hrd : r.2 = d := by simpa using hr
        have hx : (x.2 == d) = false := by
          by_contra hxx
          have hxd : x.2 = d := by simpa using (Bool.of_not_eq_false hxx)
          rw [hxd, hrd] at hlt
          rw [DistV.ltB_self] at hlt
          exact Bool.false_ne_true hlt
        simp only [List.filter_cons, hx, if_neg, Bool.false_eq_true, ite_false, ih, hr,
          ite_true]
      · have hr' : (r.2 == d) = false := Bool.of_not_eq_true hr
        simp only [List.filter_cons, ih, hr', Bool.false_eq_true, ite_false]
    · rw [if_neg hlt]
      by_cases hr : (r.2 == d) = true
      · simp only [List.filter_cons, hr, ite_true]
      · have hr' : (r.2 == d) = false := Bool.of_not_eq_true hr
        simp only [List.filter_cons, hr', Bool.false_eq_true, ite_false]

/-- Stability of the sort: for every distance value, the equal-distance rows
appear in the output in their original input order. -/
theorem sortRated_stable (l : List (ProdRow × DistV)) (d : DistV) :
    (sortRated l).filter (fun x => x.2 == d) = l.filter (fun x => x.2 == d) := by
  induction l with
  | nil => rfl
  | cons x xs ih =>
    show (insertRated x (sortRated xs)).filter (fun y => y.2 == d) = _
    rw [insertRated_filter, List.filter_cons]
    by_cases hx : (x.2 == d) = true
    · rw [if_pos hx, if_pos hx, ih]
    · have hx' : (x.2 == d) = false := Bool.of_not_eq_true hx
      rw [if_neg (by simp [hx']), hx', ih]
      simp

/-- In a `Pairwise`-sorted list, every kept element (the first `n`) compares
below every dropped element. -/
theorem pairwise_take_drop {R : ProdRow × DistV → ProdRow × DistV → Prop}
    (l : List (ProdRow × DistV)) (h : l.Pairwise R) (n : Nat) :
    ∀ a ∈ l.take n, ∀ b ∈ l.drop n, R a b := by
  have h2 : (l.take n ++ l.drop n).Pairwise R := by
    rw [List.take_append_drop]
    exact h
  exact (List.pairwise_append.mp h2).2.2

/-- C3 amended: for a coercible nonempty query vector, `vector_similarity`
returns exactly the `max(limit, 1)` nearest candidates (the source applies
`max(int(limit), 1)`, so `limit = 0` yields one row, not zero): the output
is the image of `selectedCandidates`; its length is `min (max limit 1)` of
the number of finite-distance candidates; it is sorted by non-decreasing
distance; mismatched-dimension or unparseable embeddings (infinite
distance) are excluded; the sort is a permutation of the kept candidates;
every selected candidate is at most every unselected one; and ties are
stable (equal-distance rows keep their original order). -/
theorem c3_vector_similarity_amended (prodTbl : List VipProduct) (brandTbl : List VipBrand)
    (q : PyVal) (limit : Int) (target : List ℚ)
    (hq : coerce_vector q = some target) (hne : target ≠ []) :
    DuckDBMirror_vector_similarity true prodTbl brandTbl q limit =
      .ok ((selectedCandidates target prodTbl limit).map
        (fun pr => ⟨pr.1.product_name, brandLookup (loadBrands brandTbl) pr.1.vip_brand_id⟩)) ∧
    (selectedCandidates target prodTbl limit).length =
      min (max limit 1).toNat (keptCandidates target prodTbl).length ∧
    (selectedCandidates target prodTbl limit).Pairwise
      (fun a b => DistV.leB a.2 b.2 = true) ∧
    (∀ c ∈ selectedCandidates target prodTbl limit, c.2 ≠ DistV.inf) ∧
    (sortRated (keptCandidates target prodTbl)).Perm (keptCandidates target prodTbl) ∧
    (∀ a ∈ selectedCandidates target prodTbl limit,
      ∀ b ∈ (sortRated (keptCandidates target prodTbl)).drop (max limit 1).toNat,
        DistV.leB a.2 b.2 = true) ∧
    (∀ d, (sortRated (keptCandidates target prodTbl)).filter (fun x => x.2 == d) =
      (keptCandidates target prodTbl).filter (fun x => x.2 == d)) := by
  have hneb : target.isEmpty = false := by
    cases target with
    | nil => exact absurd rfl hne
    | cons a l => rfl
  refine ⟨?_, ?_, ?_, ?_, sortRated_perm _, ?_, fun d => sortRated_stable _ d⟩
  · unfold DuckDBMirror_vector_similarity
    dsimp only
    rw [hq]
    simp only [Bool.not_true, Bool.false_eq_true, if_false, hneb]
    by_cases hp : (loadProducts prodTbl).isEmpty
    · have hpl : loadProducts prodTbl = [] := by simpa using hp
      have hkl : keptCandidates target prodTbl = [] := by
        simp [keptCandidates, ratedCandidates, hpl]
      simp [hp, selectedCandidates, hkl, sortRated]
    · simp only [Bool.of_not_eq_true hp, Bool.false_eq_true, if_false]
      by_cases hk : (keptCandidates target prodTbl).isEmpty
      · have hkl : keptCandidates target prodTbl = [] := by simpa using hk
        simp [hk, hkl, selectedCandidates, sortRated]
      · simp only [Bool.of_not_eq_true hk, Bool.false_eq_true, if_false]
  · rw [selectedCandidates, List.length_take, (sortRated_perm _).length_eq]
  · exact List.Pairwise.sublist (List.take_sublist _ _) (sortRated_sorted _)
  · intro c hc
    have hcs : c ∈ sortRated (keptCandidates target prodTbl) := List.mem_of_mem_take hc
    have hck : c ∈ keptCandidates target prodTbl := (sortRated_perm _).mem_iff.mp hcs
    have hfil := List.of_mem_filter hck
    simpa using hfil
  · intro a ha b hb
    exact pairwise_take_drop _ (sortRated_sorted _) _ a ha b hb

/-- Concrete `vip_products` rows for C3: embeddings `[1,0]` (listed first)
and `[0,1]`. -/
def prodsC3 : List VipProduct :=
  [⟨2, 20, some "P10", some "p10raw", .pyList [.pyNum 1, .pyNum 0]⟩,
   ⟨1, 10, some "P01", some "p01raw", .pyList [.pyNum 0, .pyNum 1]⟩]

/-- Concrete `vip_brands` row for C3. -/
def brandsC3 : List VipBrand := [⟨10, some "BrandB", none⟩]

/-- Concrete query vector `[0,1]` for C3. -/
def qC3 : PyVal := .pyList [.pyNum 0, .pyNum 1]

/-- Distance of the `[1,0]` embedding to the query `[0,1]`: squared
Euclidean distance 2 (Euclidean distance √2). -/
theorem rowDistance_emb10 :
    rowDistance [0, 1] (PyVal.pyList [.pyNum 1, .pyNum 0]) = DistV.fin 2 := by
  have hm : List.mapM.loop pyFloat [PyVal.pyNum 1, PyVal.pyNum 0] [] = some [(1 : ℚ), 0] := rfl
  have h : sumSqDiff [(1 : ℚ), 0] [0, 1] = 2 := by norm_num [sumSqDiff]
  simp [rowDistance, parse_embedding, toFloatList, hm, h]

/-- Distance of the `[0,1]` embedding to the query `[0,1]`: 0. -/
theorem rowDistance_emb01 :
    rowDistance [0, 1] (PyVal.pyList [.pyNum 0, .pyNum 1]) = DistV.fin 0 := by
  have hm : List.mapM.loop pyFloat [PyVal.pyNum 0, PyVal.pyNum 1] [] = some [(0 : ℚ), 1] := rfl
  have h : sumSqDiff [(0 : ℚ), 1] [0, 1] = 0 := by norm_num [sumSqDiff]
  simp [rowDistance, parse_embedding, toFloatList, hm, h]

/-- The kept candidates of the C3 example: both rows, the `[1,0]` row first
(input order) at squared distance 2, the `[0,1]` row at distance 0. -/
theorem keptCandidates_C3 :
    keptCandidates [0, 1] prodsC3 =
      [(⟨2, 20, some "P10", .pyList [.pyNum 1, .pyNum 0]⟩, DistV.fin 2),
       (⟨1, 10, some "P01", .pyList [.pyNum 0, .pyNum 1]⟩, DistV.fin 0)] := by
  have hload : loadProducts prodsC3 =
      [⟨2, 20, some "P10", .pyList [.pyNum 1, .pyNum 0]⟩,
       ⟨1, 10, some "P01", .pyList [.pyNum 0, .pyNum 1]⟩] := rfl
  simp only [keptCandidates, ratedCandidates, hload, List.map_cons, List.map_nil,
    rowDistance_emb10, rowDistance_emb01]
  rfl

/-- The selected candidate for any limit at most 1 (the source floors the
row count at one): the `[0,1]` row, distance 0. -/
theorem selectedCandidates_C3 (limit : Int) (hlim : limit ≤ 1) :
    selectedCandidates [0, 1] prodsC3 limit =
      [(⟨1, 10, some "P01", .pyList [.pyNum 0, .pyNum 1]⟩, DistV.fin 0)] := by
  have hmax : (max limit 1).toNat = 1 := by omega
  rw [selectedCandidates, keptCandidates_C3, hmax]
  rfl

/-- C3 counterexample: with `limit = 0` the source still returns one row
(`max(int(limit), 1)`), so "returns the limit rows of smallest distance"
fails at `limit = 0`: the result has one row, not zero. -/
theorem c3_limit_zero_counterexample :
    DuckDBMirror_vector_similarity true prodsC3 brandsC3 qC3 0 =
      .ok [⟨some "P01", some "BrandB"⟩] ∧
    ¬ DuckDBMirror_vector_similarity true prodsC3 brandsC3 qC3 0 = .ok [] := by
  have hmain : DuckDBMirror_vector_similarity true prodsC3 brandsC3 qC3 0 =
      .ok [⟨some "P01", some "BrandB"⟩] := by
    unfold DuckDBMirror_vector_similarity
    dsimp only
    rw [show coerce_vector qC3 = some [0, 1] from rfl]
    dsimp only
    rw [keptCandidates_C3, selectedCandidates_C3 0 (by omega)]
    rfl
  refine ⟨hmain, ?_⟩
  intro h
  rw [hmain] at h
  simp at h

/-- Witness for C3 (amended) on the spec's concrete example: query `[0,1]`
against embeddings `[1,0]` and `[0,1]` with `limit = 1` selects the `[0,1]`
row (squared distance 0, i.e. Euclidean distance 0) ahead of `[1,0]`
(squared distance 2, i.e. Euclidean distance √2), and the output row carries
the display and brand names. -/
theorem c3_vector_similarity_amended_witness :
    coerce_vector qC3 = some [0, 1] ∧
    ([0, 1] : List ℚ) ≠ [] ∧
    DuckDBMirror_vector_similarity true prodsC3 brandsC3 qC3 1 =
      .ok ((selectedCandidates [0, 1] prodsC3 1).map
        (fun pr => ⟨pr.1.product_name, brandLookup (loadBrands brandsC3) pr.1.vip_brand_id⟩)) ∧
    (selectedCandidates [0, 1] prodsC3 1).map
        (fun pr =>
          (⟨pr.1.product_name, brandLookup (loadBrands brandsC3) pr.1.vip_brand_id⟩ : SimRow)) =
      [⟨some "P01", some "BrandB"⟩] := by
  refine ⟨rfl, by decide, ?_, ?_⟩
  · exact (c3_vector_similarity_amended prodsC3 brandsC3 qC3 1 [0, 1] rfl (by decide)).1
  · rw [selectedCandidates_C3 1 (by omega)]
    rfl
